import Mathlib

/-!
# Verification of the sparse-structure runtime (`src/include/struct.h`)

Shallow embedding of the per-node-type pool allocator (`SNodeAllocator`),
its reclamation sweep (`recycle_all_gpu` / `clear`), and the six container
variants (`layout_root`, `dense`, `hashed`, `pointer`, `dynamic`,
`indirect`).

Modelling conventions:
* C pointers into the data pool are represented by slot numbers (`Nat`);
  a nullable pointer is an `Option Nat`, with `none` for `nullptr`.
* `max_num_indices` (defined outside this header) is kept abstract as a
  parameter `nIdx`; a `PhysicalIndexGroup` is a function `Fin nIdx → Int`.
* `data_type` is kept abstract through its 4-byte-word image: the data pool
  is a flat array of C `int` words (`Nat → Int`), a slot of `sizeof(data_type)`
  bytes occupying `ips = sizeof(data_type) / 4` consecutive words
  (the header statically asserts `sizeof(data_type) % 4 == 0`).  The word
  image written by the placement-new default construction is a parameter
  `dflt : Nat → Int`.
* `atomic_add(p, 1)` returns the old value; under the serial semantics
  modelled here it is read-then-increment.
* A failed `TC_ASSERT` terminates the process; operations that can hit one
  return an `Option`, `none` being the fatal assertion.
* Memory returned by the raw `allocate` primitive is uninitialized, so the
  constructor takes the initial pool contents as arbitrary parameters.
-/

namespace Taichi

/-- `SNodeMeta` (struct.h lines 38-42): per-node bookkeeping record
`{int indices[max_num_indices]; void *ptr; int active;}`. -/
structure SNodeMeta (nIdx : Nat) where
  indices : Fin nIdx → Int
  ptr : Option Nat
  active : Bool

/-- State of an `SNodeAllocator<T>` (struct.h lines 51-116): the two metadata
pools, the (nullable) data pool, and the two tail counters. -/
structure SNodeAllocator (nIdx : Nat) where
  resident_pool : Nat → SNodeMeta nIdx
  recycle_pool : Nat → SNodeMeta nIdx
  data_pool : Option (Nat → Int)
  resident_tail : Nat
  recycle_tail : Nat

/-- `pool_size = (1LL << 33) / sizeof(data_type)` (struct.h lines 54-56),
as a function of `sizeof(data_type)` in bytes. -/
def pool_size (bytesPerSlot : Nat) : Nat := 2 ^ 33 / bytesPerSlot

/-- The constructor `SNodeAllocator()` (struct.h lines 65-78): allocates the
data pool only when `T::has_null`, otherwise leaves it `nullptr`; always
allocates the two metadata pools; zeroes both tails.  The freshly
`allocate`d memory is uninitialized, hence the arbitrary initial contents. -/
def SNodeAllocator.init {nIdx : Nat} (hasNull : Bool)
    (rInit cInit : Nat → SNodeMeta nIdx) (dInit : Nat → Int) :
    SNodeAllocator nIdx where
  resident_pool := rInit
  recycle_pool := cInit
  data_pool := if hasNull then some dInit else none
  resident_tail := 0
  recycle_tail := 0

/-- `reset_meta()` (struct.h lines 80-83): zero both tail counters. -/
def SNodeAllocator.reset_meta {nIdx : Nat} (a : SNodeAllocator nIdx) :
    SNodeAllocator nIdx :=
  { a with resident_tail := 0, recycle_tail := 0 }

/-- `allocate_node(index)` (struct.h lines 85-99).  `TC_ASSERT(data_pool !=
nullptr)` is the `none` branch (the remaining asserts cannot fail in the
model: the metadata pools are unconditionally allocated).  Claims slot
`id = atomic_add(&resident_tail, 1)` (old value), writes the metadata record
(`active = true`, `ptr = data_pool + id`, componentwise copy of `index`),
placement-news a default `data_type` into words `[id*ips, (id+1)*ips)` of the
data pool, and returns the slot pointer. -/
def SNodeAllocator.allocate_node {nIdx : Nat} (ips : Nat) (dflt : Nat → Int)
    (a : SNodeAllocator nIdx) (index : Fin nIdx → Int) :
    Option (SNodeAllocator nIdx × Nat) :=
  match a.data_pool with
  | none => none
  | some d =>
    let id := a.resident_tail
    let meta : SNodeMeta nIdx :=
      { indices := fun i => index i, ptr := some id, active := true }
    some ({ a with
            resident_pool := fun k => if k = id then meta else a.resident_pool k
            data_pool := some (fun k =>
              if id * ips ≤ k ∧ k < (id + 1) * ips then dflt (k - id * ips)
              else d k)
            resident_tail := id + 1 }, id)

/-- `AllocatorStat` (declared in `common.h`; its fields are fixed by their
use in `get_stat`, struct.h lines 108-115). -/
structure AllocatorStat where
  snode_id : Nat
  pool_size : Nat
  num_recycled_blocks : Nat
  num_resident_blocks : Nat

/-- `get_stat()` (struct.h lines 108-115). -/
def SNodeAllocator.get_stat {nIdx : Nat} (snodeId ips : Nat)
    (a : SNodeAllocator nIdx) : AllocatorStat where
  snode_id := snodeId
  pool_size := pool_size (4 * ips)
  num_recycled_blocks := a.recycle_tail
  num_resident_blocks := a.resident_tail

/-- One block of the `recycle_all_gpu` kernel (struct.h lines 119-133), for
block index `b`: if `resident_pool[b].active`, do nothing; otherwise every
thread executes `((int *)&data_pool[b])[b] = 0` (note: the subscript is the
block index `b`, i.e. flat word `b * ips + b` — not the thread index), and
thread 0 appends `resident_pool[b]` to the recycle pool at
`atomic_add(&recycle_tail, 1)`. -/
def recycleStep {nIdx : Nat} (ips : Nat) (a : SNodeAllocator nIdx) (b : Nat) :
    SNodeAllocator nIdx :=
  if (a.resident_pool b).active then a
  else
    { a with
      data_pool := a.data_pool.map (fun d => fun k =>
        if k = b * ips + b then 0 else d k)
      recycle_pool := fun k =>
        if k = a.recycle_tail then a.resident_pool b else a.recycle_pool k
      recycle_tail := a.recycle_tail + 1 }

/-- The `recycle_all_gpu<T><<<resident_tail, sizeof(data_type)/4>>>` launch:
one block per resident slot, serialized here as a left fold (the per-block
effects commute up to the order of recycle-pool appends). -/
def recycle_all_gpu {nIdx : Nat} (ips : Nat) (a : SNodeAllocator nIdx) :
    SNodeAllocator nIdx :=
  (List.range a.resident_tail).foldl (recycleStep ips) a

/-- `SNodeAllocator<T>::clear()` (struct.h lines 135-139): run the recycle
kernel over all resident slots, then reset `resident_tail`. -/
def SNodeAllocator.clear {nIdx : Nat} (ips : Nat) (a : SNodeAllocator nIdx) :
    SNodeAllocator nIdx :=
  { recycle_all_gpu ips a with resident_tail := 0 }

/-- Word `k` of the data pool, reading `0` through a null pool (evaluation
helper for concrete states). -/
def SNodeAllocator.dataAt {nIdx : Nat} (a : SNodeAllocator nIdx) (k : Nat) : Int :=
  match a.data_pool with
  | none => 0
  | some d => d k

/-- `layout_root<child_type>` (struct.h lines 191-213): exactly one child. -/
structure layout_root (α : Type) where
  children : α

/-- `layout_root::look_up(i)` (lines 195-198): `return &children;` — the
flattened index `i` is never inspected; the one child is returned. -/
def layout_root.look_up {α : Type} (s : layout_root α) (i : Int) : α :=
  s.children

/-- `layout_root::get_n()` (lines 200-202). -/
def layout_root.get_n {α : Type} (s : layout_root α) : Int := 1

/-- `layout_root::get_max_n()` (lines 204-206). -/
def layout_root.get_max_n : Int := 1

/-- `layout_root::activate(i, index)` (lines 208-210): a no-op. -/
def layout_root.activate {α : Type} {nIdx : Nat} (s : layout_root α) (i : Int)
    (index : Fin nIdx → Int) : layout_root α :=
  s

/-- `layout_root::has_null` (line 212). -/
def layout_root.has_null : Bool := true

/-- `dense<child_type, n>` (struct.h lines 215-238): a fixed inline array.
The array is embedded in flat memory (`Int → α`) because the source indexes
it without any bounds check. -/
structure dense (n : Nat) (α : Type) where
  children : Int → α

/-- `dense::look_up(i)` (lines 220-223): `return &children[i];`, unchecked. -/
def dense.look_up {n : Nat} {α : Type} (s : dense n α) (i : Int) : α :=
  s.children i

/-- `dense::get_n()` (lines 225-227). -/
def dense.get_n {n : Nat} {α : Type} (s : dense n α) : Int := n

/-- `dense::get_max_n()` (lines 229-231). -/
def dense.get_max_n (n : Nat) : Int := n

/-- `dense::activate(i, index)` (lines 233-235): a no-op. -/
def dense.activate {n : Nat} {α : Type} {nIdx : Nat} (s : dense n α) (i : Int)
    (index : Fin nIdx → Int) : dense n α :=
  s

/-- `dense::has_null` (line 237). -/
def dense.has_null : Bool := false

/-- `hashed<child_type>` (struct.h lines 240-271): an
`unordered_map<int, child_type *>`, modelled as an association list with at
most one entry per key (the mutex is the serial semantics itself). -/
structure hashed where
  data : List (Int × Nat)

/-- `hashed::look_up(i)` (lines 250-256): `nullptr` when `find` misses,
otherwise the stored child pointer. -/
def hashed.look_up (s : hashed) (i : Int) : Option Nat :=
  if (s.data.lookup i).isNone then none
  else s.data.lookup i

/-- `hashed::activate(i, index)` (lines 258-264): when `i` is absent,
allocates a node from this type's allocator (reached through the registry,
threaded here as explicit state) and inserts the pair; otherwise nothing. -/
def hashed.activate {nIdx : Nat} (ips : Nat) (dflt : Nat → Int)
    (alloc : SNodeAllocator nIdx) (s : hashed) (i : Int)
    (index : Fin nIdx → Int) : Option (SNodeAllocator nIdx × hashed) :=
  if (s.data.lookup i).isNone then
    match alloc.allocate_node ips dflt index with
    | none => none
    | some (alloc2, r) => some (alloc2, ⟨(i, r) :: s.data⟩)
  else some (alloc, s)

/-- `hashed::get_n()` (lines 266-268): `data.size()`. -/
def hashed.get_n (s : hashed) : Int := s.data.length

/-- `hashed::has_null` (line 270). -/
def hashed.has_null : Bool := true

/-- `pointer<child_type>` (struct.h lines 273-317): at most one
lazily-materialized child behind a CAS lock. -/
structure pointer where
  data : Option Nat
  lock : Int

/-- `pointer::look_up(i)` (lines 280-284): `return data;` — the flattened
index `i` is never inspected, and the raw (possibly null) pointer is
returned unconditionally. -/
def pointer.look_up (s : pointer) (i : Int) : Option Nat :=
  s.data

/-- `pointer::get_n()` (lines 286-288). -/
def pointer.get_n (s : pointer) : Int := 1

/-- `pointer::get_max_n()` (lines 290-292). -/
def pointer.get_max_n : Int := 1

/-- `pointer::activate(i, index)` (lines 294-314).  Body under the lock (and
the whole host-side body): `if (data == nullptr) data = allocate_node(index);`.
The CUDA warp loop and CAS spin serialize contenders; the serial semantics
of the guarded section is modelled. -/
def pointer.activate {nIdx : Nat} (ips : Nat) (dflt : Nat → Int)
    (alloc : SNodeAllocator nIdx) (s : pointer) (i : Int)
    (index : Fin nIdx → Int) : Option (SNodeAllocator nIdx × pointer) :=
  if s.data.isNone then
    match alloc.allocate_node ips dflt index with
    | none => none
    | some (alloc2, r) => some (alloc2, { s with data := some r })
  else some (alloc, s)

/-- `pointer::has_null` (line 316). -/
def pointer.has_null : Bool := true

/-- `dynamic<child_type, max_n>` (struct.h lines 319-361): an append-only
sequence; `data` lives in flat memory since indexing is unchecked. -/
structure dynamic (maxN : Nat) (α : Type) where
  data : Int → α
  n : Int

/-- `dynamic::look_up(i)` (lines 329-336), host flavor: best-effort advance
`n = max(n, i + 1)` assuming serial execution, then `return &data[i];`. -/
def dynamic.look_up {maxN : Nat} {α : Type} (s : dynamic maxN α) (i : Int) :
    dynamic maxN α × α :=
  ({ s with n := max s.n (i + 1) }, s.data i)

/-- `dynamic::clear()` (lines 338-340). -/
def dynamic.clear {maxN : Nat} {α : Type} (s : dynamic maxN α) :
    dynamic maxN α :=
  { s with n := 0 }

/-- `dynamic::append(t)` (lines 342-344): `data[atomic_add(&n, 1)] = t;`. -/
def dynamic.append {maxN : Nat} {α : Type} (s : dynamic maxN α) (t : α) :
    dynamic maxN α :=
  { s with data := fun k => if k = s.n then t else s.data k, n := s.n + 1 }

/-- `dynamic::activate(i, index)` (lines 346-350): a no-op. -/
def dynamic.activate {maxN : Nat} {α : Type} {nIdx : Nat} (s : dynamic maxN α)
    (i : Int) (index : Fin nIdx → Int) : dynamic maxN α :=
  s

/-- `dynamic::get_n()` (lines 352-354). -/
def dynamic.get_n {maxN : Nat} {α : Type} (s : dynamic maxN α) : Int := s.n

/-- `dynamic::get_max_n()` (lines 356-358). -/
def dynamic.get_max_n (maxN : Nat) : Int := maxN

/-- `dynamic::has_null` (line 360). -/
def dynamic.has_null : Bool := false

/-- `indirect<max_n>` (struct.h lines 364-393): an append-only sequence of
plain `int`s with an atomic size counter. -/
structure indirect (maxN : Nat) where
  data : Int → Int
  n : Int

/-- `indirect::get_n()` (lines 373-375). -/
def indirect.get_n {maxN : Nat} (s : indirect maxN) : Int := s.n

/-- `indirect::get_max_n()` (lines 377-379). -/
def indirect.get_max_n (maxN : Nat) : Int := maxN

/-- `indirect::look_up(i)` (lines 381-386), host flavor: advance
`n = max(n, i + 1)`, then `return &data[i];`. -/
def indirect.look_up {maxN : Nat} (s : indirect maxN) (i : Int) :
    indirect maxN × Int :=
  ({ s with n := max s.n (i + 1) }, s.data i)

/-- `indirect::clear()` (lines 388-390). -/
def indirect.clear {maxN : Nat} (s : indirect maxN) : indirect maxN :=
  { s with n := 0 }

/-- `indirect::has_null` (line 392). -/
def indirect.has_null : Bool := false

/-- The member surface of one container variant: which of the five members
of the uniform contract its struct declares in the source. -/
structure ContainerMembers where
  has_look_up : Bool
  has_activate : Bool
  has_get_n : Bool
  has_get_max_n : Bool
  has_has_null : Bool

/-- Members of `layout_root` (struct.h lines 191-213): all five present. -/
def layout_root.members : ContainerMembers :=
  ⟨true, true, true, true, true⟩

/-- Members of `dense` (struct.h lines 215-238): all five present. -/
def dense.members : ContainerMembers :=
  ⟨true, true, true, true, true⟩

/-- Members of `hashed` (struct.h lines 240-271): `look_up`, `activate`,
`get_n`, `has_null` are declared; the struct declares no `get_max_n`. -/
def hashed.members : ContainerMembers :=
  ⟨true, true, true, false, true⟩

/-- Members of `pointer` (struct.h lines 273-317): all five present. -/
def pointer.members : ContainerMembers :=
  ⟨true, true, true, true, true⟩

/-- Members of `dynamic` (struct.h lines 319-361): all five present (plus
`clear` and `append`). -/
def dynamic.members : ContainerMembers :=
  ⟨true, true, true, true, true⟩

/-- Members of `indirect` (struct.h lines 364-393): `look_up`, `get_n`,
`get_max_n`, `has_null` are declared; the struct declares no `activate`. -/
def indirect.members : ContainerMembers :=
  ⟨true, false, true, true, true⟩

/-- All six variants, in the order of the spec's table. -/
def sixVariantMembers : List ContainerMembers :=
  [layout_root.members, dense.members, pointer.members, hashed.members,
   dynamic.members, indirect.members]

/-- The spec's uniform contract: a variant implements `look_up`, `activate`,
`get_n`, `get_max_n` and `has_null`. -/
def fullUniformContract (c : ContainerMembers) : Bool :=
  c.has_look_up && c.has_activate && c.has_get_n && c.has_get_max_n &&
    c.has_has_null

/-- The allocator state after one successful `allocate_node` on a state
whose data pool holds `d` (spelled out for use in computation lemmas). -/
def allocAfter {nIdx : Nat} (ips : Nat) (dflt : Nat → Int)
    (a : SNodeAllocator nIdx) (d : Nat → Int) (index : Fin nIdx → Int) :
    SNodeAllocator nIdx :=
  { a with
    resident_pool := fun k =>
      if k = a.resident_tail then
        { indices := fun i => index i, ptr := some a.resident_tail,
          active := true }
      else a.resident_pool k
    data_pool := some (fun k =>
      if a.resident_tail * ips ≤ k ∧ k < (a.resident_tail + 1) * ips then
        dflt (k - a.resident_tail * ips)
      else d k)
    resident_tail := a.resident_tail + 1 }

/-- Computation rule for `allocate_node` on a non-null data pool. -/
lemma allocate_node_eq {nIdx : Nat} (ips : Nat) (dflt : Nat → Int)
    (a : SNodeAllocator nIdx) (d : Nat → Int) (index : Fin nIdx → Int)
    (hd : a.data_pool = some d) :
    a.allocate_node ips dflt index =
      some (allocAfter ips dflt a d index, a.resident_tail) := by
  unfold SNodeAllocator.allocate_node allocAfter
  rw [hd]

/-- Claim C1: `allocate_node` performs no bounds check against `pool_size`.
For every allocator state with a non-null data pool — with no hypothesis
whatsoever on `resident_tail` — the call succeeds, claims slot
`resident_tail`, writes the metadata record and the data words of that slot,
and bumps the counter; in particular when `resident_tail` already reached
`pool_size`, the counter moves strictly past the capacity, so the invariant
`resident counter ≤ capacity` is not enforced. -/
theorem C1_no_capacity_check {nIdx : Nat} (ips : Nat) (dflt : Nat → Int)
    (a : SNodeAllocator nIdx) (d : Nat → Int) (index : Fin nIdx → Int)
    (hd : a.data_pool = some d) :
    ∃ a2, a.allocate_node ips dflt index = some (a2, a.resident_tail) ∧
      a2.resident_tail = a.resident_tail + 1 ∧
      (a2.resident_pool a.resident_tail).active = true ∧
      (a2.resident_pool a.resident_tail).ptr = some a.resident_tail ∧
      (∀ j, j < ips → a2.dataAt (a.resident_tail * ips + j) = dflt j) ∧
      (pool_size (4 * ips) ≤ a.resident_tail →
        pool_size (4 * ips) < a2.resident_tail) := by
  refine ⟨_, allocate_node_eq ips dflt a d index hd, rfl,
    by simp [allocAfter], by simp [allocAfter], ?_, ?_⟩
  · intro j hj
    have h2 : a.resident_tail * ips + j < (a.resident_tail + 1) * ips := by
      rw [Nat.succ_mul]; omega
    simp only [allocAfter, SNodeAllocator.dataAt]
    rw [if_pos ⟨Nat.le_add_right _ _, h2⟩, Nat.add_sub_cancel_left]
  · intro h
    exact Nat.lt_succ_of_le h

/-- Witness for C1 at a concrete over-capacity state: `sizeof(data_type) =
2^33` gives `pool_size = 1`, and the pool already holds one resident node. -/
theorem C1_no_capacity_check_witness :
    ∃ a2, SNodeAllocator.allocate_node (2 ^ 31) (fun _ => 0)
        ({ resident_pool := fun _ => ⟨fun _ => 0, none, false⟩
           recycle_pool := fun _ => ⟨fun _ => 0, none, false⟩
           data_pool := some fun _ => 0
           resident_tail := 1
           recycle_tail := 0 } : SNodeAllocator 1) (fun _ => 5) =
        some (a2, 1) ∧
      a2.resident_tail = 1 + 1 ∧
      (a2.resident_pool 1).active = true ∧
      (a2.resident_pool 1).ptr = some 1 ∧
      (∀ j, j < 2 ^ 31 → a2.dataAt (1 * 2 ^ 31 + j) = 0) ∧
      (pool_size (4 * 2 ^ 31) ≤ 1 → pool_size (4 * 2 ^ 31) < a2.resident_tail) := by
  exact C1_no_capacity_check (2 ^ 31) (fun _ => 0)
    ({ resident_pool := fun _ => ⟨fun _ => 0, none, false⟩
       recycle_pool := fun _ => ⟨fun _ => 0, none, false⟩
       data_pool := some fun _ => 0
       resident_tail := 1
       recycle_tail := 0 } : SNodeAllocator 1) (fun _ => 0) (fun _ => 5) rfl

/-- Claim C3: the metadata record written by `allocate_node` carries the
input coordinates componentwise over all `max_num_indices` components, has
`active = true`, and its pointer equals the returned child reference. -/
theorem C3_metadata_fidelity {nIdx : Nat} (ips : Nat) (dflt : Nat → Int)
    (a : SNodeAllocator nIdx) (d : Nat → Int) (index : Fin nIdx → Int)
    (hd : a.data_pool = some d) :
    ∃ a2 r, a.allocate_node ips dflt index = some (a2, r) ∧
      (∀ i : Fin nIdx, (a2.resident_pool r).indices i = index i) ∧
      (a2.resident_pool r).active = true ∧
      (a2.resident_pool r).ptr = some r := by
  refine ⟨_, _, allocate_node_eq ips dflt a d index hd, ?_,
    by simp [allocAfter], by simp [allocAfter]⟩
  intro i
  simp [allocAfter]

/-- Witness for C3 at a concrete coordinate tuple. -/
theorem C3_metadata_fidelity_witness :
    ∃ a2 r, SNodeAllocator.allocate_node 1 (fun _ => 0)
        (SNodeAllocator.init true
          (fun _ => (⟨fun _ => 0, none, false⟩ : SNodeMeta 2))
          (fun _ => ⟨fun _ => 0, none, false⟩) (fun _ => 0))
        (fun i => 10 + i) = some (a2, r) ∧
      (∀ i : Fin 2, (a2.resident_pool r).indices i = 10 + i) ∧
      (a2.resident_pool r).active = true ∧
      (a2.resident_pool r).ptr = some r :=
  C3_metadata_fidelity 1 (fun _ => 0) _ (fun _ => 0) (fun i => 10 + i) rfl

/-- Claim C6: `reset_meta` zeroes both counters and touches nothing else —
data storage and both metadata pools are untouched — and a following
`get_stat` reports zero resident and zero recycled blocks. -/
theorem C6_reset_meta_correct {nIdx : Nat} (snodeId ips : Nat)
    (a : SNodeAllocator nIdx) :
    a.reset_meta.resident_tail = 0 ∧
    a.reset_meta.recycle_tail = 0 ∧
    a.reset_meta.data_pool = a.data_pool ∧
    a.reset_meta.resident_pool = a.resident_pool ∧
    a.reset_meta.recycle_pool = a.recycle_pool ∧
    (a.reset_meta.get_stat snodeId ips).num_resident_blocks = 0 ∧
    (a.reset_meta.get_stat snodeId ips).num_recycled_blocks = 0 :=
  ⟨rfl, rfl, rfl, rfl, rfl, rfl, rfl⟩

/-- Claim C9: the `pointer` and `layout_root` variants' `look_up` never
inspects the flattened index: it is a total function whose value at any two
indices `i`, `j` (in range or not) is the same single child slot —
`children` for the root, the `data` pointer for `pointer`. -/
theorem C9_lookup_ignores_index (α : Type) :
    (∀ (s : layout_root α) (i j : Int),
      s.look_up i = s.look_up j ∧ s.look_up i = s.children) ∧
    (∀ (s : pointer) (i j : Int),
      s.look_up i = s.look_up j ∧ s.look_up i = s.data) :=
  ⟨fun _ _ _ => ⟨rfl, rfl⟩, fun _ _ _ => ⟨rfl, rfl⟩⟩

/-- Claim C7 counterexample: it is false that every one of the six variants
implements the full uniform contract — the check fails on the concrete list
of member surfaces read off the six structs (`hashed` declares no
`get_max_n`, `indirect` declares no `activate`). -/
theorem C7_uniform_contract_counterexample :
    sixVariantMembers.all fullUniformContract = false := by
  decide

/-- Claim C7 as amended: `root`, `dense`, `pointer`, `dynamic` implement the
full uniform contract; `hashed` implements `look_up`, `activate`, `get_n`,
`has_null` but declares no `get_max_n`; `indirect` implements `look_up`,
`get_n`, `get_max_n`, `has_null` but declares no `activate`. -/
theorem C7_uniform_contract_amended :
    fullUniformContract layout_root.members = true ∧
    fullUniformContract dense.members = true ∧
    fullUniformContract pointer.members = true ∧
    fullUniformContract dynamic.members = true ∧
    hashed.members.has_look_up = true ∧
    hashed.members.has_activate = true ∧
    hashed.members.has_get_n = true ∧
    hashed.members.has_has_null = true ∧
    hashed.members.has_get_max_n = false ∧
    indirect.members.has_look_up = true ∧
    indirect.members.has_get_n = true ∧
    indirect.members.has_get_max_n = true ∧
    indirect.members.has_has_null = true ∧
    indirect.members.has_activate = false := by
  decide

/-- Iterated `allocate_node`: one call per coordinate tuple of `idxs`,
threading the allocator state and collecting the returned slot numbers. -/
def allocMany {nIdx : Nat} (ips : Nat) (dflt : Nat → Int)
    (a : SNodeAllocator nIdx) :
    List (Fin nIdx → Int) → Option (SNodeAllocator nIdx × List Nat)
  | [] => some (a, [])
  | c :: cs =>
    match a.allocate_node ips dflt c with
    | none => none
    | some (a1, r) =>
      match allocMany ips dflt a1 cs with
      | none => none
      | some (a2, rs) => some (a2, r :: rs)

/-- On a non-null data pool, `n` allocations claim the `n` consecutive slots
starting at the current `resident_tail` and advance the counter by `n`. -/
lemma allocMany_spec {nIdx : Nat} (ips : Nat) (dflt : Nat → Int)
    (idxs : List (Fin nIdx → Int)) :
    ∀ (a : SNodeAllocator nIdx) (d : Nat → Int), a.data_pool = some d →
      ∃ a2 d2, allocMany ips dflt a idxs =
          some (a2, List.range' a.resident_tail idxs.length) ∧
        a2.resident_tail = a.resident_tail + idxs.length ∧
        a2.data_pool = some d2 := by
  induction idxs with
  | nil =>
    intro a d hd
    exact ⟨a, d, rfl, by simp, hd⟩
  | cons c cs ih =>
    intro a d hd
    obtain ⟨a2, d2, h1, h2, h3⟩ := ih (allocAfter ips dflt a d c) _ rfl
    refine ⟨a2, d2, ?_, ?_, h3⟩
    · simp only [allocMany, allocate_node_eq ips dflt a d c hd, h1,
        List.length_cons, List.range'_succ]
      simp [allocAfter]
    · rw [h2]
      simp only [allocAfter, List.length_cons]
      omega

/-- Two distinct slots occupy disjoint word ranges of the data pool. -/
lemma slot_ranges_disjoint (ips r q k : Nat) (h : r < q)
    (h2 : k < (r + 1) * ips) (h3 : q * ips ≤ k) : False := by
  have hm : (r + 1) * ips ≤ q * ips := Nat.mul_le_mul_right ips h
  omega

/-- Claim C2: starting from a freshly reset pool (resident counter `0`) with
a non-null data pool, `N` calls to `allocate_node` yield the `N` slot numbers
`0, …, N-1` — pairwise distinct, with pairwise disjoint word ranges in the
data pool — and the resident counter afterwards equals `N`. -/
theorem C2_slot_uniqueness {nIdx : Nat} (ips : Nat) (dflt : Nat → Int)
    (idxs : List (Fin nIdx → Int)) (a : SNodeAllocator nIdx) (d : Nat → Int)
    (hd : a.data_pool = some d) (h0 : a.resident_tail = 0) :
    ∃ a2, allocMany ips dflt a idxs = some (a2, List.range idxs.length) ∧
      (List.range idxs.length).Nodup ∧
      a2.resident_tail = idxs.length ∧
      ∀ r ∈ List.range idxs.length, ∀ q ∈ List.range idxs.length, r ≠ q →
        ∀ k, ¬((r * ips ≤ k ∧ k < (r + 1) * ips) ∧
               (q * ips ≤ k ∧ k < (q + 1) * ips)) := by
  obtain ⟨a2, d2, h1, h2, _⟩ := allocMany_spec ips dflt idxs a d hd
  rw [h0] at h1 h2
  refine ⟨a2, by rw [List.range_eq_range']; exact h1,
    List.nodup_range idxs.length, by omega, ?_⟩
  intro r _ q _ hne k hk
  obtain ⟨⟨hr1, hr2⟩, hq1, hq2⟩ := hk
  rcases Nat.lt_or_gt_of_ne hne with h | h
  · exact slot_ranges_disjoint ips r q k h hr2 hq1
  · exact slot_ranges_disjoint ips q r k h hq2 hr1

/-- Witness for C2: three allocations from a fresh pool with one-word slots
produce slots `0`, `1`, `2` and resident count `3`. -/
theorem C2_slot_uniqueness_witness :
    ∃ a2, allocMany 1 (fun _ => 0)
        (SNodeAllocator.init true
          (fun _ => (⟨fun _ => 0, none, false⟩ : SNodeMeta 1))
          (fun _ => ⟨fun _ => 0, none, false⟩) (fun _ => 0))
        ([fun _ => 0, fun _ => 1, fun _ => 2] : List (Fin 1 → Int)) =
        some (a2, List.range
          ([fun _ => 0, fun _ => 1, fun _ => 2] : List (Fin 1 → Int)).length) ∧
      (List.range
        ([fun _ => 0, fun _ => 1, fun _ => 2] : List (Fin 1 → Int)).length).Nodup ∧
      a2.resident_tail =
        ([fun _ => 0, fun _ => 1, fun _ => 2] : List (Fin 1 → Int)).length ∧
      ∀ r ∈ List.range
          ([fun _ => 0, fun _ => 1, fun _ => 2] : List (Fin 1 → Int)).length,
        ∀ q ∈ List.range
          ([fun _ => 0, fun _ => 1, fun _ => 2] : List (Fin 1 → Int)).length,
        r ≠ q → ∀ k, ¬((r * 1 ≤ k ∧ k < (r + 1) * 1) ∧
                       (q * 1 ≤ k ∧ k < (q + 1) * 1)) :=
  C2_slot_uniqueness 1 (fun _ => 0) _ _ (fun _ => 0) rfl rfl

/-- Claim C4: activation is idempotent for the `pointer` and `hashed`
variants — the second activation of the same flattened index leaves both the
container and the allocator untouched and the installed child reference is
identical — and for `hashed`, `look_up` on an untouched index is `none`
while after `activate(i, coords)` it returns exactly the reference that
activation allocated. -/
theorem C4_idempotent_activation {nIdx : Nat} (ips : Nat) (dflt : Nat → Int)
    (alloc : SNodeAllocator nIdx) (d : Nat → Int)
    (hd : alloc.data_pool = some d) (i : Int) (index index2 : Fin nIdx → Int) :
    (∀ s : pointer, s.data = none →
      ∃ alloc2 r, pointer.activate ips dflt alloc s i index =
          some (alloc2, { s with data := some r }) ∧
        pointer.activate ips dflt alloc2 { s with data := some r } i index2 =
          some (alloc2, { s with data := some r })) ∧
    ((⟨[]⟩ : hashed).look_up i = none) ∧
    (∀ s : hashed, s.data.lookup i = none →
      ∃ alloc2 r, hashed.activate ips dflt alloc s i index =
          some (alloc2, ⟨(i, r) :: s.data⟩) ∧
        hashed.look_up ⟨(i, r) :: s.data⟩ i = some r ∧
        hashed.activate ips dflt alloc2 ⟨(i, r) :: s.data⟩ i index2 =
          some (alloc2, ⟨(i, r) :: s.data⟩)) := by
  refine ⟨?_, by simp [hashed.look_up], ?_⟩
  · intro s hs
    refine ⟨allocAfter ips dflt alloc d index, alloc.resident_tail, ?_, ?_⟩
    · simp [pointer.activate, hs, allocate_node_eq ips dflt alloc d index hd]
    · simp [pointer.activate]
  · intro s hs
    refine ⟨allocAfter ips dflt alloc d index, alloc.resident_tail, ?_, ?_, ?_⟩
    · simp [hashed.activate, hs, allocate_node_eq ips dflt alloc d index hd]
    · simp [hashed.look_up, List.lookup]
    · simp [hashed.activate, List.lookup]

/-- Witness for C4 at a fresh pointer cell, a fresh hashed map and a fresh
allocator, flattened index `7`. -/
theorem C4_idempotent_activation_witness :
    (∀ s : pointer, s.data = none →
      ∃ alloc2 r, pointer.activate 1 (fun _ => 0)
          (SNodeAllocator.init true
            (fun _ => (⟨fun _ => 0, none, false⟩ : SNodeMeta 1))
            (fun _ => ⟨fun _ => 0, none, false⟩) (fun _ => 0)) s 7
          (fun _ => 1) = some (alloc2, { s with data := some r }) ∧
        pointer.activate 1 (fun _ => 0) alloc2 { s with data := some r } 7
          (fun _ => 2) = some (alloc2, { s with data := some r })) ∧
    ((⟨[]⟩ : hashed).look_up 7 = none) ∧
    (∀ s : hashed, s.data.lookup 7 = none →
      ∃ alloc2 r, hashed.activate 1 (fun _ => 0)
          (SNodeAllocator.init true
            (fun _ => (⟨fun _ => 0, none, false⟩ : SNodeMeta 1))
            (fun _ => ⟨fun _ => 0, none, false⟩) (fun _ => 0)) s 7
          (fun _ => 1) = some (alloc2, ⟨(7, r) :: s.data⟩) ∧
        hashed.look_up ⟨(7, r) :: s.data⟩ 7 = some r ∧
        hashed.activate 1 (fun _ => 0) alloc2 ⟨(7, r) :: s.data⟩ 7
          (fun _ => 2) = some (alloc2, ⟨(7, r) :: s.data⟩)) :=
  C4_idempotent_activation 1 (fun _ => 0) _ (fun _ => 0) rfl 7
    (fun _ => 1) (fun _ => 2)

/-- The per-record invariant of the spec's data model: the `ptr` field is
non-null iff the `active` flag is set. -/
def metaOk {nIdx : Nat} (m : SNodeMeta nIdx) : Prop :=
  m.ptr.isSome = true ↔ m.active = true

/-- The invariant over an allocator state: every meaningful metadata record
— resident records below `resident_tail` and recycled records below
`recycle_tail` — satisfies `metaOk`. -/
def allocOk {nIdx : Nat} (a : SNodeAllocator nIdx) : Prop :=
  (∀ k, k < a.resident_tail → metaOk (a.resident_pool k)) ∧
  (∀ k, k < a.recycle_tail → metaOk (a.recycle_pool k))

/-- `recycleStep` leaves the resident pool and its tail unchanged. -/
lemma recycleStep_resident {nIdx : Nat} (ips : Nat) (a : SNodeAllocator nIdx)
    (b : Nat) :
    (recycleStep ips a b).resident_pool = a.resident_pool ∧
    (recycleStep ips a b).resident_tail = a.resident_tail := by
  unfold recycleStep
  split <;> exact ⟨rfl, rfl⟩

/-- One recycle block preserves the metadata invariant: the only record it
appends is a copy of a resident record. -/
lemma recycleStep_allocOk {nIdx : Nat} {ips : Nat} {a : SNodeAllocator nIdx}
    {b : Nat} (h : allocOk a) (hb : b < a.resident_tail) :
    allocOk (recycleStep ips a b) := by
  unfold recycleStep
  split
  · exact h
  · refine ⟨h.1, ?_⟩
    intro k hk
    simp only at hk ⊢
    by_cases hke : k = a.recycle_tail
    · subst hke
      simp only [if_pos rfl]
      exact h.1 b hb
    · rw [if_neg hke]
      exact h.2 k (by omega)

/-- The whole recycle sweep preserves the metadata invariant. -/
lemma foldl_recycleStep_allocOk {nIdx : Nat} (ips : Nat) (l : List Nat) :
    ∀ a : SNodeAllocator nIdx, allocOk a → (∀ b ∈ l, b < a.resident_tail) →
      allocOk (l.foldl (recycleStep ips) a) := by
  induction l with
  | nil =>
    intro a h _
    exact h
  | cons b bs ih =>
    intro a h hl
    simp only [List.foldl_cons]
    apply ih
    · exact recycleStep_allocOk h (hl b (by simp))
    · intro x hx
      rw [(recycleStep_resident ips a b).2]
      exact hl x (by simp [hx])

/-- Claim C8: the metadata-record invariant — `ptr` non-null iff `active` —
holds of the freshly constructed allocator and is preserved by every
operation that writes metadata: `allocate_node` (which moreover writes a
record with `active = true` and a non-null pointer), the reclamation sweep
`clear`, and `reset_meta`. -/
theorem C8_meta_invariant {nIdx : Nat} (ips : Nat) (dflt : Nat → Int)
    (a : SNodeAllocator nIdx) (h : allocOk a) :
    allocOk a.reset_meta ∧
    allocOk (a.clear ips) ∧
    (∀ index c r, a.allocate_node ips dflt index = some (c, r) →
      allocOk c ∧ (c.resident_pool r).active = true ∧
        (c.resident_pool r).ptr = some r) ∧
    (∀ (hasNull : Bool) (rI cI : Nat → SNodeMeta nIdx) (dI : Nat → Int),
      allocOk (SNodeAllocator.init hasNull rI cI dI)) := by
  refine ⟨?_, ?_, ?_, ?_⟩
  · exact ⟨fun k hk => absurd hk (Nat.not_lt_zero k),
      fun k hk => absurd hk (Nat.not_lt_zero k)⟩
  · have hsweep := foldl_recycleStep_allocOk ips (List.range a.resident_tail)
      a h (fun b hb => List.mem_range.mp hb)
    exact ⟨fun k hk => absurd hk (Nat.not_lt_zero k), hsweep.2⟩
  · intro index c r hs
    cases hd : a.data_pool with
    | none =>
      rw [SNodeAllocator.allocate_node, hd] at hs
      cases hs
    | some d =>
      rw [allocate_node_eq ips dflt a d index hd] at hs
      injection hs with hs
      injection hs with hs1 hs2
      subst hs1
      subst hs2
      refine ⟨⟨?_, h.2⟩, by simp [allocAfter], by simp [allocAfter]⟩
      intro k hk
      simp only [allocAfter] at hk ⊢
      by_cases hke : k = a.resident_tail
      · subst hke
        simp only [if_pos rfl]
        exact ⟨fun _ => rfl, fun _ => rfl⟩
      · rw [if_neg hke]
        exact h.1 k (by omega)
  · intro hasNull rI cI dI
    exact ⟨fun k hk => absurd hk (Nat.not_lt_zero k),
      fun k hk => absurd hk (Nat.not_lt_zero k)⟩

/-- Witness for C8 at a concrete allocator state (two resident records, one
recycled record, all satisfying the invariant). -/
theorem C8_meta_invariant_witness :
    allocOk (SNodeAllocator.reset_meta
      ({ resident_pool := fun k => ⟨fun _ => 0, some k, true⟩
         recycle_pool := fun _ => ⟨fun _ => 0, none, false⟩
         data_pool := some fun _ => 0
         resident_tail := 2
         recycle_tail := 1 } : SNodeAllocator 1)) ∧
    allocOk (SNodeAllocator.clear 1
      ({ resident_pool := fun k => ⟨fun _ => 0, some k, true⟩
         recycle_pool := fun _ => ⟨fun _ => 0, none, false⟩
         data_pool := some fun _ => 0
         resident_tail := 2
         recycle_tail := 1 } : SNodeAllocator 1)) ∧
    (∀ index c r,
      SNodeAllocator.allocate_node 1 (fun _ => 0)
        ({ resident_pool := fun k => ⟨fun _ => 0, some k, true⟩
           recycle_pool := fun _ => ⟨fun _ => 0, none, false⟩
           data_pool := some fun _ => 0
           resident_tail := 2
           recycle_tail := 1 } : SNodeAllocator 1) index = some (c, r) →
      allocOk c ∧ (c.resident_pool r).active = true ∧
        (c.resident_pool r).ptr = some r) ∧
    (∀ (hasNull : Bool) (rI cI : Nat → SNodeMeta 1) (dI : Nat → Int),
      allocOk (SNodeAllocator.init hasNull rI cI dI)) :=
  C8_meta_invariant 1 (fun _ => 0) _
    ⟨fun k _ => ⟨fun _ => rfl, fun _ => rfl⟩,
     fun k hk => ⟨fun hc => absurd hc (by simp), fun hc => absurd hc (by simp)⟩⟩

/-- States reachable from `a` through the allocator's mutating operations
(`allocate_node`, `reset_meta`, `clear`). -/
inductive Reachable {nIdx : Nat} (ips : Nat) (dflt : Nat → Int) :
    SNodeAllocator nIdx → SNodeAllocator nIdx → Prop
  | refl (a : SNodeAllocator nIdx) : Reachable ips dflt a a
  | alloc (a b c : SNodeAllocator nIdx) (index : Fin nIdx → Int) (r : Nat) :
      Reachable ips dflt a b →
      b.allocate_node ips dflt index = some (c, r) →
      Reachable ips dflt a c
  | reset (a b : SNodeAllocator nIdx) :
      Reachable ips dflt a b → Reachable ips dflt a b.reset_meta
  | sweep (a b : SNodeAllocator nIdx) :
      Reachable ips dflt a b → Reachable ips dflt a (b.clear ips)

/-- A successful `allocate_node` leaves the data pool non-null. -/
lemma allocate_node_keeps_data {nIdx : Nat} {ips : Nat} {dflt : Nat → Int}
    {b c : SNodeAllocator nIdx} {index : Fin nIdx → Int} {r : Nat}
    (hs : b.allocate_node ips dflt index = some (c, r)) :
    c.data_pool.isSome = true := by
  cases hd : b.data_pool with
  | none =>
    rw [SNodeAllocator.allocate_node, hd] at hs
    cases hs
  | some d =>
    rw [allocate_node_eq ips dflt b d index hd] at hs
    injection hs with hs
    injection hs with hs1 _
    subst hs1
    rfl

/-- `recycleStep` does not change whether the data pool is null. -/
lemma recycleStep_data_isSome {nIdx : Nat} (ips : Nat)
    (a : SNodeAllocator nIdx) (b : Nat) :
    (recycleStep ips a b).data_pool.isSome = a.data_pool.isSome := by
  unfold recycleStep
  split
  · rfl
  · simp

/-- The recycle sweep does not change whether the data pool is null. -/
lemma foldl_recycleStep_data_isSome {nIdx : Nat} (ips : Nat) (l : List Nat) :
    ∀ a : SNodeAllocator nIdx,
      ((l.foldl (recycleStep ips) a).data_pool.isSome = a.data_pool.isSome) := by
  induction l with
  | nil =>
    intro a
    rfl
  | cons b bs ih =>
    intro a
    simp only [List.foldl_cons]
    rw [ih, recycleStep_data_isSome]

/-- Along any reachable execution, a non-null data pool stays non-null. -/
lemma Reachable.data_isSome {nIdx : Nat} {ips : Nat} {dflt : Nat → Int}
    {a b : SNodeAllocator nIdx} (h : Reachable ips dflt a b)
    (ha : a.data_pool.isSome = true) : b.data_pool.isSome = true := by
  induction h with
  | refl => exact ha
  | alloc b c index r hr hs ih => exact allocate_node_keeps_data hs
  | reset b hr ih => exact ih
  | sweep b hr ih =>
    show ((List.range b.resident_tail).foldl (recycleStep ips)
      b).data_pool.isSome = true
    rw [foldl_recycleStep_data_isSome]
    exact ih

/-- A non-null data pool makes `allocate_node` succeed. -/
lemma allocate_node_total {nIdx : Nat} (ips : Nat) (dflt : Nat → Int)
    (a : SNodeAllocator nIdx) (index : Fin nIdx → Int)
    (ha : a.data_pool.isSome = true) :
    ∃ c r, a.allocate_node ips dflt index = some (c, r) := by
  cases hd : a.data_pool with
  | none =>
    rw [hd] at ha
    cases ha
  | some d =>
    exact ⟨_, _, allocate_node_eq ips dflt a d index hd⟩

/-- Claim C10: the constructor nulls `data_pool` exactly when `has_null` is
false; on such an allocator every `allocate_node` call dies on the
`TC_ASSERT(data_pool != nullptr)` (the `none` result), while on a
`has_null = true` allocator the assertion can never fire in any state
reachable through the allocator's operations. -/
theorem C10_data_pool_assertion {nIdx : Nat} (ips : Nat) (dflt : Nat → Int)
    (rI cI : Nat → SNodeMeta nIdx) (dI : Nat → Int) :
    (SNodeAllocator.init false rI cI dI).data_pool = none ∧
    (∀ index, (SNodeAllocator.init false rI cI dI).allocate_node ips dflt
      index = none) ∧
    (SNodeAllocator.init true rI cI dI).data_pool = some dI ∧
    (∀ b, Reachable ips dflt (SNodeAllocator.init true rI cI dI) b →
      ∀ index, ∃ c r, b.allocate_node ips dflt index = some (c, r)) := by
  refine ⟨rfl, fun index => rfl, rfl, ?_⟩
  intro b hb index
  exact allocate_node_total ips dflt b index (hb.data_isSome rfl)

/-- Witness for C10: the two constructor flavors at concrete initial pool
contents, with the reachable state taken to be the fresh allocator itself. -/
theorem C10_data_pool_assertion_witness :
    (SNodeAllocator.init false (fun _ => (⟨fun _ => 0, none, false⟩ :
        SNodeMeta 1)) (fun _ => ⟨fun _ => 0, none, false⟩)
      (fun _ => 3)).data_pool = none ∧
    (∀ index, (SNodeAllocator.init false
        (fun _ => (⟨fun _ => 0, none, false⟩ : SNodeMeta 1))
        (fun _ => ⟨fun _ => 0, none, false⟩)
        (fun _ => 3)).allocate_node 1 (fun _ => 0) index = none) ∧
    (SNodeAllocator.init true (fun _ => (⟨fun _ => 0, none, false⟩ :
        SNodeMeta 1)) (fun _ => ⟨fun _ => 0, none, false⟩)
      (fun _ => 3)).data_pool = some (fun _ => 3) ∧
    (∀ b, Reachable 1 (fun _ => 0)
        (SNodeAllocator.init true
          (fun _ => (⟨fun _ => 0, none, false⟩ : SNodeMeta 1))
          (fun _ => ⟨fun _ => 0, none, false⟩) (fun _ => 3)) b →
      ∀ index, ∃ c r, b.allocate_node 1 (fun _ => 0) index = some (c, r)) :=
  C10_data_pool_assertion 1 (fun _ => 0)
    (fun _ => ⟨fun _ => 0, none, false⟩)
    (fun _ => ⟨fun _ => 0, none, false⟩) (fun _ => 3)

/-- Concrete sweep scenario for C5: `sizeof(data_type) = 8` (two words per
slot), four resident slots all already marked inactive, every word of the
data pool holding `7`. -/
def sweepState : SNodeAllocator 1 where
  resident_pool := fun k => ⟨fun _ => (k : Int), some k, false⟩
  recycle_pool := fun _ => ⟨fun _ => 0, none, false⟩
  data_pool := some fun _ => 7
  resident_tail := 4
  recycle_tail := 0

/-- Claim C5, evaluated: the sweep does move all four inactive slots to the
recycle list (`recycle_tail = 4`) and resets the resident counter, but it
does not zero-fill the reclaimed slots' data: the kernel writes
`((int *)&data_pool[b])[b] = 0` — the word at the block index `b`, not the
thread index — so after the sweep word `1` of slot `0` still holds `7`,
while word `9` (which lies inside slot `4`, outside every reclaimed slot)
has been zeroed. -/
theorem C5_sweep_not_zero_fill :
    (sweepState.clear 2).recycle_tail = 4 ∧
    (sweepState.clear 2).resident_tail = 0 ∧
    (sweepState.clear 2).dataAt 0 = 0 ∧
    (sweepState.clear 2).dataAt 1 = 7 ∧
    (sweepState.clear 2).dataAt 9 = 0 := by
  refine ⟨rfl, rfl, rfl, rfl, rfl⟩

end Taichi
